import Mathlib

/-!
Verification of the iburba-ai-fitting client against its specification.

The repository holds three successive variants of the same single-page
try-on screen:

* `AppOld`  — src/frontend/src/App_old.tsx (fetch-based, message/error state);
* `TimerApp` — src/unnamed/part_000 (axios, 3-second auto-trigger with a
  has-executed latch);
* `AuthApp` — src/unnamed/part_001 (axios, login/register/logout, pricing
  plans and a local daily-usage counter).

Each handler is embedded as a pure state-transition function.  The single
awaited network interaction of a handler is folded into one argument, the
outcome of the request (a parsed response body, or the caught error), so a
whole `async` handler becomes `State → Outcome → State × emitted effects`.
JavaScript truthiness on optional strings and numbers is modelled
explicitly (`Js.strTruthy`, `Js.jsOr`, `Js.numTruthy`).
-/

namespace Js

/-- JavaScript truthiness of an optional string: present and non-empty. -/
def strTruthy (o : Option String) : Bool :=
  match o with
  | none => false
  | some s => s != ""

/-- The JavaScript expression `o || d` for an optional string `o`:
the string itself when present and non-empty, otherwise the fallback. -/
def jsOr (o : Option String) (d : String) : String :=
  match o with
  | none => d
  | some s => if s = "" then d else s

/-- JavaScript truthiness of an optional number: present and non-zero. -/
def numTruthy (o : Option ℚ) : Bool :=
  match o with
  | none => false
  | some q => q != 0

/-- Characters of a list strictly before the first comma. -/
def takeUntilComma : List Char → List Char
  | [] => []
  | c :: cs => if c = (',') then [] else c :: takeUntilComma cs

/-- Characters of a list strictly after the first comma. -/
def dropUntilComma : List Char → List Char
  | [] => []
  | c :: cs => if c = (',') then cs else dropUntilComma cs

/-- The `fileToBase64` helper that every variant defines: it reads the file
as a data URL and returns `result.split(',')[1]`, i.e. the segment between
the first comma (ending the `data:<mime>;base64` header) and the next
comma or the end of the string.  The input here is the data-URL string
produced by the file read. -/
def fileToBase64 (dataUrl : String) : String :=
  String.mk (takeUntilComma (dropUntilComma dataUrl.data))

end Js

namespace AppOld

/-- The `VirtualTryonResponse` interface of App_old.tsx. -/
structure TryonResponse where
  success : Bool
  result_image : Option String
  message : Option String
  error : Option String
  processing_time : Option ℚ
  is_test_mode : Option Bool
deriving DecidableEq

/-- The view state of App_old.tsx (the `useState` hooks of `App`).
Files are identified by the data-URL string their read would produce. -/
structure State where
  personImage : Option String
  garmentImage : Option String
  personImagePreview : Option String
  garmentImagePreview : Option String
  resultImage : Option String
  loading : Bool
  message : String
  error : String
  showComparison : Bool
deriving DecidableEq

/-- Outcome of the awaited `fetch` in `handleTryon`: a parsed body on a
2xx answer, a non-2xx status (which the code turns into a thrown
`HTTP <status>: <statusText>` error), or any other thrown error with its
`.message`. -/
inductive FetchOutcome where
  | ok (data : TryonResponse)
  | httpError (status : Nat) (statusText : String)
  | thrown (msg : String)
deriving DecidableEq

/-- The handler `handleTryon` of App_old.tsx as a state transition.  The returned
boolean records whether the network call was issued (the function passed
the missing-asset guard). -/
def handleTryon (s : State) (o : FetchOutcome) : State × Bool :=
  if s.personImage.isNone || s.garmentImage.isNone then
    ({ s with error := "인물 사진과 의상 사진을 모두 업로드해주세요." }, false)
  else
    let s1 : State :=
      { s with loading := true, error := "", message := "이미지 처리 중...",
               resultImage := none, showComparison := false }
    let s2 : State :=
      match o with
      | .ok data =>
          if data.success && Js.strTruthy data.result_image then
            let m0 := Js.jsOr data.message ("가상 피팅이 완료되었습니다!")
            let m1 :=
              if Js.numTruthy data.processing_time then
                m0 ++ " (처리 시간: " ++ toString ((data.processing_time).getD 0) ++ "초)"
              else m0
            let m2 := if data.is_test_mode == some true then m1 ++ " [개발 모드]" else m1
            { s1 with resultImage := data.result_image, message := m2, showComparison := true }
          else
            { s1 with error := Js.jsOr data.error (Js.jsOr data.message ("가상 피팅에 실패했습니다.")) }
      | .httpError st stx =>
          { s1 with error := "네트워크 오류: " ++ ("HTTP " ++ toString st ++ ": " ++ stx) }
      | .thrown m =>
          { s1 with error := "네트워크 오류: " ++ m }
    ({ s2 with loading := false }, true)

/-- The `disabled` condition of the submit button of App_old.tsx:
`!personImage || !garmentImage || loading`. -/
def tryonDisabled (s : State) : Bool :=
  s.personImage.isNone || s.garmentImage.isNone || s.loading

/-- The `person_image` / `garment_image` request field built by
`handleTryon` of App_old.tsx: the data-URI header is re-added in front of
the stripped base64 (`data:image/jpeg;base64,${personBase64}`). -/
def requestImageField (dataUrl : String) : String :=
  "data:image/jpeg;base64," ++ Js.fileToBase64 dataUrl

end AppOld

namespace TimerApp

/-- The `VirtualTryonResponse` interface of the timer-driven variant. -/
structure TryonResponse where
  success : Bool
  result_image : Option String
  processing_time : Option ℚ
  cost : Option ℚ
  remaining_usage : Option Int
  error : Option String
deriving DecidableEq

/-- The view state of the timer-driven variant. -/
structure TState where
  personFile : Option String
  garmentFile : Option String
  result : Option String
  loading : Bool
  progress : Nat
  hasExecuted : Bool
deriving DecidableEq

/-- Outcome of the awaited axios call: a parsed body, or a caught error
carrying `error.response?.data?.error` and `error.message`. -/
inductive TryonOutcome where
  | ok (data : TryonResponse)
  | axiosError (respError : Option String) (message : Option String)
deriving DecidableEq

/-- Result of one handler invocation: the new state, the alert shown (if
any) and whether the network call was issued. -/
structure CallResult where
  state : TState
  alert : Option String
  issued : Bool
deriving DecidableEq

/-- The alert text of the catch block of the timer-driven
`handleVirtualTryon`. -/
def axiosAlert (respError message : Option String) : String :=
  if Js.strTruthy respError then "오류: " ++ Js.jsOr respError ("")
  else if Js.strTruthy message then "오류: " ++ Js.jsOr message ("")
  else "가상 피팅 중 오류가 발생했습니다. 다시 시도해주세요."

/-- The handler `handleVirtualTryon` of the timer-driven variant as a
state transition. -/
def handleVirtualTryon (s : TState) (o : TryonOutcome) : CallResult :=
  if s.personFile.isNone || s.garmentFile.isNone then
    { state := s, alert := some ("인물 사진과 의상 사진을 모두 선택해주세요."), issued := false }
  else
    let s1 : TState :=
      { s with loading := true, progress := 0, result := none, hasExecuted := true }
    match o with
    | .ok data =>
        if data.success && Js.strTruthy data.result_image then
          { state := { s1 with result := data.result_image, progress := 100, loading := false },
            alert := none, issued := true }
        else
          { state := { s1 with loading := false },
            alert := some (Js.jsOr data.error ("알 수 없는 오류가 발생했습니다.")), issued := true }
    | .axiosError re msg =>
        { state := { s1 with loading := false },
          alert := some (axiosAlert re msg), issued := true }

/-- The `person_image` / `garment_image` request field of the timer-driven
variant: the bare stripped base64. -/
def requestImageField (dataUrl : String) : String :=
  Js.fileToBase64 dataUrl

/-- Machine state for the auto-trigger behavior.  Selected files are
identified by fresh numeric ids (`nextId` allocates them), reflecting that
each selection replaces the `File` object wholesale.  `armed = some (p, g)`
means the effect has a pending 3-second timeout that was installed while
the asset pair `(p, g)` was current. -/
structure MState where
  person : Option Nat
  garment : Option Nat
  loading : Bool
  hasExecuted : Bool
  result : Option String
  progress : Nat
  armed : Option (Nat × Nat)
  nextId : Nat
deriving DecidableEq

/-- Events of the auto-trigger machine: file selections (fresh file) and
clears (`e.target.files?.[0] || null`), the reset button, the pending
timeout firing, and the asynchronous completion of a started submission. -/
inductive Event where
  | selectPerson
  | selectGarment
  | clearPerson
  | clearGarment
  | reset
  | fire
  | finish (ok : Bool) (img : String)
deriving DecidableEq

/-- The condition of the auto-trigger `useEffect`:
`personFile && garmentFile && !loading && !hasExecuted`. -/
def autoCond (s : MState) : Bool :=
  s.person.isSome && s.garment.isSome && !s.loading && !s.hasExecuted

/-- The auto-trigger `useEffect`, run after every state change: the
previous timeout (if any) is cleared by the effect cleanup, and a new
3-second timeout keyed by the current asset pair is installed exactly when
the effect condition holds. -/
def effect (s : MState) : MState :=
  { s with armed :=
      match s.person, s.garment with
      | some p, some g => if !s.loading && !s.hasExecuted then some (p, g) else none
      | _, _ => none }

/-- The raw state change of each event, before the effect re-runs. -/
def stepCore (s : MState) : Event → MState
  | .selectPerson => { s with person := some s.nextId, nextId := s.nextId + 1 }
  | .selectGarment => { s with garment := some s.nextId, nextId := s.nextId + 1 }
  | .clearPerson => { s with person := none }
  | .clearGarment => { s with garment := none }
  | .reset =>
      { s with person := none, garment := none, result := none,
               progress := 0, hasExecuted := false }
  | .fire =>
      match s.armed with
      | some _ =>
          if s.person.isSome && s.garment.isSome then
            { s with loading := true, progress := 0, result := none,
                     hasExecuted := true, armed := none }
          else { s with armed := none }
      | none => s
  | .finish ok img =>
      if s.loading then
        { s with loading := false,
                 result := if ok then some img else none,
                 progress := if ok then 100 else s.progress }
      else s

/-- One machine step: the state change of the event followed by the effect. -/
def step (s : MState) (e : Event) : MState :=
  effect (stepCore s e)

/-- The initial machine state. -/
def init : MState :=
  { person := none, garment := none, loading := false, hasExecuted := false,
    result := none, progress := 0, armed := none, nextId := 0 }

/-- Run a list of events. -/
def run (s : MState) : List Event → MState
  | [] => s
  | e :: es => run (step s e) es

/-- The asset pairs for which the auto-trigger actually executes at this
event (the timeout fires while armed and the handler passes its guard). -/
def firedAt (s : MState) (e : Event) : List (Nat × Nat) :=
  match e, s.armed with
  | .fire, some pr => if s.person.isSome && s.garment.isSome then [pr] else []
  | _, _ => []

/-- All asset pairs for which the auto-trigger executes along a trace. -/
def fired (s : MState) : List Event → List (Nat × Nat)
  | [] => []
  | e :: es => firedAt s e ++ fired (step s e) es

/-- Invariant of the auto-trigger machine, carried together with the list
of already-fired asset pairs. -/
structure Inv (s : MState) (fs : List (Nat × Nat)) : Prop where
  nodup : fs.Nodup
  bound : ∀ pr ∈ fs, pr.1 < s.nextId ∧ pr.2 < s.nextId
  pbound : ∀ p, s.person = some p → p < s.nextId
  gbound : ∀ g, s.garment = some g → g < s.nextId
  armedOk : ∀ pr, s.armed = some pr →
      s.person = some pr.1 ∧ s.garment = some pr.2 ∧
      s.hasExecuted = false ∧ s.loading = false
  fresh : s.hasExecuted = false →
      ∀ p g, s.person = some p → s.garment = some g → (p, g) ∉ fs

end TimerApp

namespace AuthApp

/-- The three views of the session-aware variant. -/
inductive View where
  | login
  | register
  | main
deriving DecidableEq

/-- The `User` interface of the session-aware variant. -/
structure User where
  id : Int
  email : String
  plan : String
  daily_usage : Int
deriving DecidableEq

/-- The `PricingPlan` interface of the session-aware variant. -/
structure PricingPlan where
  name : String
  price : ℚ
  daily_limit : Int
  features : List String
deriving DecidableEq

/-- The `VirtualTryonResponse` interface of the session-aware variant. -/
structure TryonResponse where
  success : Bool
  result_image : Option String
  processing_time : Option ℚ
  cost : Option ℚ
  remaining_usage : Option Int
  error : Option String
deriving DecidableEq

/-- The state of the session-aware variant: the stored token
(`localStorage`, key `token`), the `useState` hooks of `App`. -/
structure State where
  storedToken : Option String
  user : Option User
  loading : Bool
  currentView : View
  personImage : Option String
  garmentImage : Option String
  result : Option String
  processingTime : Option ℚ
deriving DecidableEq

/-- Outcome of the awaited axios try-on call: a parsed body, or a caught
error carrying `error.response?.data?.detail`. -/
inductive TryonOutcome where
  | ok (data : TryonResponse)
  | axiosError (detail : Option String)
deriving DecidableEq

/-- Result of one try-on handler invocation. -/
structure CallResult where
  state : State
  alert : Option String
  issued : Bool
deriving DecidableEq

/-- The handler `handleVirtualTryon` of the session-aware variant as a
state transition. -/
def handleVirtualTryon (s : State) (o : TryonOutcome) : CallResult :=
  if s.personImage.isNone || s.garmentImage.isNone then
    { state := s, alert := some ("인물 사진과 의상 사진을 모두 업로드해주세요."), issued := false }
  else
    let s1 : State := { s with loading := true }
    match o with
    | .ok data =>
        if data.success then
          let s2 : State :=
            { s1 with
              result := some (Js.jsOr data.result_image ("")),
              processingTime := some ((data.processing_time).getD 0),
              user :=
                match s1.user with
                | some u => some { u with daily_usage := u.daily_usage + 1 }
                | none => none }
          { state := { s2 with loading := false }, alert := none, issued := true }
        else
          { state := { s1 with loading := false },
            alert := some (Js.jsOr data.error ("가상 피팅 실패")), issued := true }
    | .axiosError detail =>
        { state := { s1 with loading := false },
          alert := some (Js.jsOr detail ("가상 피팅 오류")), issued := true }

/-- Outcome of an awaited auth call (`/auth/login`, `/auth/register`):
the destructured success body, or a caught error carrying
`error.response?.data?.detail`. -/
inductive AuthOutcome where
  | ok (access_token : String) (plan : String) (daily_usage : Int)
  | err (detail : Option String)
deriving DecidableEq

/-- Result of one auth handler invocation. -/
structure AuthResult where
  state : State
  alert : Option String
deriving DecidableEq

/-- The handler `handleLogin` of the session-aware variant: on success the token is
persisted and the session is set from the `plan` field of the response and
`daily_usage`; on failure `detail` is alerted with a generic fallback. -/
def handleLogin (s : State) (email _password : String) (o : AuthOutcome) : AuthResult :=
  let s1 : State := { s with loading := true }
  match o with
  | .ok tok plan du =>
      { state :=
          { s1 with storedToken := some tok,
                    user := some { id := 0, email := email, plan := plan, daily_usage := du },
                    currentView := .main, loading := false },
        alert := none }
  | .err detail =>
      { state := { s1 with loading := false },
        alert := some (Js.jsOr detail ("로그인 실패")) }

/-- The handler `handleRegister` of the session-aware variant: on success only
`access_token` is destructured from the response; the session user is
built from the requested plan and a hard-coded daily usage of 0. -/
def handleRegister (s : State) (email _password planReq : String) (o : AuthOutcome) : AuthResult :=
  let s1 : State := { s with loading := true }
  match o with
  | .ok tok _respPlan _respUsage =>
      { state :=
          { s1 with storedToken := some tok,
                    user := some { id := 0, email := email, plan := planReq, daily_usage := 0 },
                    currentView := .main, loading := false },
        alert := none }
  | .err detail =>
      { state := { s1 with loading := false },
        alert := some (Js.jsOr detail ("회원가입 실패")) }

/-- The handler `handleLogout` of the session-aware variant. -/
def handleLogout (s : State) : State :=
  { s with storedToken := none, user := none, currentView := .login,
           result := none, personImage := none, garmentImage := none }

/-- Lookup of `pricingPlans[key]` in the fetched plan catalog. -/
def planLookup (plans : List (String × PricingPlan)) (key : String) : Option PricingPlan :=
  match plans with
  | [] => none
  | (k, p) :: rest => if k = key then some p else planLookup rest key

/-- The `remainingUsage` computation of `MainApp`:
`currentPlan && currentPlan.daily_limit !== -1 ?
 currentPlan.daily_limit - (user?.daily_usage || 0) : -1`. -/
def remainingUsage (user : Option User) (plans : List (String × PricingPlan)) : Int :=
  match user with
  | none => -1
  | some u =>
      match planLookup plans u.plan with
      | none => -1
      | some p => if p.daily_limit = -1 then -1 else p.daily_limit - u.daily_usage

/-- Modelled from the spec: the `remainingUsage` formula of the spec
(`max(0, dailyLimit - dailyUsage)` for a limited plan, `-1` as the
unlimited marker), stated only to be compared against the source
function `remainingUsage`. -/
def remainingUsageSpec (user : Option User) (plans : List (String × PricingPlan)) : Int :=
  match user with
  | none => -1
  | some u =>
      match planLookup plans u.plan with
      | none => -1
      | some p => if p.daily_limit = -1 then -1 else max 0 (p.daily_limit - u.daily_usage)

/-- The usage-gate conjunct of the submit button of `MainApp`:
`remainingUsage === 0`. -/
def usageBlocked (user : Option User) (plans : List (String × PricingPlan)) : Bool :=
  remainingUsage user plans == 0

/-- The `disabled` condition of the submit button of `MainApp`:
`!personImage || !garmentImage || loading || (remainingUsage === 0)`. -/
def tryonDisabled (s : State) (plans : List (String × PricingPlan)) : Bool :=
  s.personImage.isNone || s.garmentImage.isNone || s.loading || usageBlocked s.user plans

/-- The `person_image` / `garment_image` request field of the
session-aware variant: the bare stripped base64. -/
def requestImageField (dataUrl : String) : String :=
  Js.fileToBase64 dataUrl

end AuthApp

/-- An empty session-aware state (all hooks at their initial values). -/
def emptyAuthState : AuthApp.State :=
  { storedToken := none, user := none, loading := false, currentView := .login,
    personImage := none, garmentImage := none, result := none, processingTime := none }

/-- A session-aware state with both assets selected and a submission
already in flight (`loading = true`). -/
def inflightAuthState : AuthApp.State :=
  { emptyAuthState with
    currentView := .main, loading := true,
    personImage := some ("person.jpg"), garmentImage := some ("garment.jpg") }

/-- A benign success body for the try-on endpoint. -/
def okResp : AuthApp.TryonResponse :=
  { success := true, result_image := some ("http://img/1.png"), processing_time := none,
    cost := none, remaining_usage := none, error := none }

/-- A session-aware user on the limited basic plan whose reported usage
exceeds the daily limit of the plan. -/
def overLimitUser : AuthApp.User :=
  { id := 1, email := "u@x.com", plan := "basic", daily_usage := 3 }

/-- A plan catalog holding one limited plan (daily limit 2). -/
def basicPlans : List (String × AuthApp.PricingPlan) :=
  [(("basic"), { name := "Basic", price := 9, daily_limit := 2, features := [] })]

/-- A logged-in session-aware state with both assets present. -/
def readyAuthState : AuthApp.State :=
  { emptyAuthState with
    currentView := .main,
    user := some { id := 0, email := "a@b.c", plan := "free", daily_usage := 1 },
    personImage := some ("person.jpg"), garmentImage := some ("garment.jpg") }

/-- A success body whose `result_image` field is missing. -/
def malformedSuccessResp : AuthApp.TryonResponse :=
  { success := true, result_image := none, processing_time := none,
    cost := none, remaining_usage := none, error := none }

/-- A session-aware state carrying the result and processing metadata of a
finished try-on. -/
def afterSuccessAuthState : AuthApp.State :=
  { readyAuthState with
    result := some ("http://img/1.png"), processingTime := some (4.2 : ℚ) }

/-- The success body of claim C8, parameterized by its `cost` field. -/
def c8Resp (c : Option ℚ) : AuthApp.TryonResponse :=
  { success := true, result_image := some ("X"), processing_time := some (4.2 : ℚ),
    cost := c, remaining_usage := none, error := none }

/-- A trace for the auto-trigger machine: select both assets, let the
auto-trigger fire and the request finish successfully, then replace the
person asset with a fresh file. -/
def replaceTrace : List TimerApp.Event :=
  [.selectPerson, .selectGarment, .fire, .finish true ("http://img/1.png"), .selectPerson]

/-- An App_old state with both assets selected. -/
def readyOldState : AppOld.State :=
  { personImage := some ("person.jpg"), garmentImage := some ("garment.jpg"),
    personImagePreview := some ("person.jpg"), garmentImagePreview := some ("garment.jpg"),
    resultImage := none, loading := false, message := "", error := "", showComparison := false }

/-- A timer-variant view state with both files selected. -/
def readyTState : TimerApp.TState :=
  { personFile := some ("person.jpg"), garmentFile := some ("garment.jpg"),
    result := none, loading := false, progress := 0, hasExecuted := false }

theorem jsOr_ne_empty (o : Option String) (d : String) (hd : d ≠ "") : Js.jsOr o d ≠ "" := by
  cases o with
  | none => exact hd
  | some s =>
      show (if s = "" then d else s) ≠ ""
      rcases eq_or_ne s ("") with h | h
      · rw [if_pos h]; exact hd
      · rw [if_neg h]; exact h

theorem append_ne_empty (p m : String) (hp : p.data ≠ []) : p ++ m ≠ "" := by
  intro h
  apply hp
  have h2 : (p ++ m).data = ("").data := congrArg String.data h
  rw [String.data_append] at h2
  simpa using (List.append_eq_nil.mp h2).1

theorem strTruthy_ne_none (o : Option String) (h : Js.strTruthy o = true) : o ≠ none := by
  cases o <;> simp [Js.strTruthy] at h ⊢

namespace TimerApp

theorem effect_armed_ok (t : MState) (pr : Nat × Nat)
    (h : (effect t).armed = some pr) :
    t.person = some pr.1 ∧ t.garment = some pr.2 ∧
      t.hasExecuted = false ∧ t.loading = false := by
  obtain ⟨per, gar, lo, he, res, prog, arm, nid⟩ := t
  cases per with
  | none => simp [effect] at h
  | some p =>
      cases gar with
      | none => simp [effect] at h
      | some g =>
          cases lo with
          | true => simp [effect] at h
          | false =>
              cases he with
              | true => simp [effect] at h
              | false =>
                  simp only [effect, Bool.not_false, Bool.and_self, if_pos] at h
                  simp only [Option.some.injEq] at h
                  subst h
                  simp

theorem step_armed_ok (s : MState) (e : Event) (pr : Nat × Nat)
    (h : (step s e).armed = some pr) :
    (step s e).person = some pr.1 ∧ (step s e).garment = some pr.2 ∧
      (step s e).hasExecuted = false ∧ (step s e).loading = false :=
  effect_armed_ok (stepCore s e) pr h

end TimerApp

namespace TimerApp

theorem stepCore_finish_fields (s : MState) (ok : Bool) (img : String) :
    (stepCore s (.finish ok img)).person = s.person ∧
    (stepCore s (.finish ok img)).garment = s.garment ∧
    (stepCore s (.finish ok img)).hasExecuted = s.hasExecuted ∧
    (stepCore s (.finish ok img)).nextId = s.nextId := by
  simp only [stepCore]
  split <;> simp

theorem inv_step (s : MState) (fs : List (Nat × Nat)) (e : Event)
    (h : Inv s fs) : Inv (step s e) (fs ++ firedAt s e) := by
  cases e with
  | selectPerson =>
      rw [show firedAt s .selectPerson = [] from rfl, List.append_nil]
      refine ⟨h.nodup, ?_, ?_, ?_, ?_, ?_⟩
      · intro pr hpr
        have h2 := h.bound pr hpr
        exact ⟨Nat.lt_succ_of_lt h2.1, Nat.lt_succ_of_lt h2.2⟩
      · intro p hp
        have hp3 : p = s.nextId := (Option.some.inj (show some s.nextId = some p from hp)).symm
        show p < s.nextId + 1
        omega
      · intro g hg
        have h2 := h.gbound g (show s.garment = some g from hg)
        show g < s.nextId + 1
        omega
      · exact fun pr hpr => step_armed_ok s _ pr hpr
      · intro he p g hp hg hmem
        have hp3 : p = s.nextId := (Option.some.inj (show some s.nextId = some p from hp)).symm
        have h2 : p < s.nextId := (h.bound (p, g) hmem).1
        omega
  | selectGarment =>
      rw [show firedAt s .selectGarment = [] from rfl, List.append_nil]
      refine ⟨h.nodup, ?_, ?_, ?_, ?_, ?_⟩
      · intro pr hpr
        have h2 := h.bound pr hpr
        exact ⟨Nat.lt_succ_of_lt h2.1, Nat.lt_succ_of_lt h2.2⟩
      · intro p hp
        have h2 := h.pbound p (show s.person = some p from hp)
        show p < s.nextId + 1
        omega
      · intro g hg
        have hg3 : g = s.nextId := (Option.some.inj (show some s.nextId = some g from hg)).symm
        show g < s.nextId + 1
        omega
      · exact fun pr hpr => step_armed_ok s _ pr hpr
      · intro he p g hp hg hmem
        have hg3 : g = s.nextId := (Option.some.inj (show some s.nextId = some g from hg)).symm
        have h2 : g < s.nextId := (h.bound (p, g) hmem).2
        omega
  | clearPerson =>
      rw [show firedAt s .clearPerson = [] from rfl, List.append_nil]
      refine ⟨h.nodup, h.bound, ?_, h.gbound, ?_, ?_⟩
      · intro p hp
        exact absurd (show (none : Option Nat) = some p from hp) (by simp)
      · exact fun pr hpr => step_armed_ok s _ pr hpr
      · intro he p g hp hg hmem
        exact absurd (show (none : Option Nat) = some p from hp) (by simp)
  | clearGarment =>
      rw [show firedAt s .clearGarment = [] from rfl, List.append_nil]
      refine ⟨h.nodup, h.bound, h.pbound, ?_, ?_, ?_⟩
      · intro g hg
        exact absurd (show (none : Option Nat) = some g from hg) (by simp)
      · exact fun pr hpr => step_armed_ok s _ pr hpr
      · intro he p g hp hg hmem
        exact absurd (show (none : Option Nat) = some g from hg) (by simp)
  | reset =>
      rw [show firedAt s .reset = [] from rfl, List.append_nil]
      refine ⟨h.nodup, h.bound, ?_, ?_, ?_, ?_⟩
      · intro p hp
        exact absurd (show (none : Option Nat) = some p from hp) (by simp)
      · intro g hg
        exact absurd (show (none : Option Nat) = some g from hg) (by simp)
      · exact fun pr hpr => step_armed_ok s _ pr hpr
      · intro he p g hp hg hmem
        exact absurd (show (none : Option Nat) = some p from hp) (by simp)
  | finish ok img =>
      rw [show firedAt s (.finish ok img) = [] from rfl, List.append_nil]
      obtain ⟨hper, hgar, hhe, hnid⟩ := stepCore_finish_fields s ok img
      have e1 : (step s (.finish ok img)).nextId = s.nextId := hnid
      refine ⟨h.nodup, ?_, ?_, ?_, ?_, ?_⟩
      · intro pr hpr
        rw [e1]
        exact h.bound pr hpr
      · intro p hp
        have hp0 : (stepCore s (.finish ok img)).person = some p := hp
        rw [hper] at hp0
        rw [e1]
        exact h.pbound p hp0
      · intro g hg
        have hg0 : (stepCore s (.finish ok img)).garment = some g := hg
        rw [hgar] at hg0
        rw [e1]
        exact h.gbound g hg0
      · exact fun pr hpr => step_armed_ok s _ pr hpr
      · intro he2 p g hp hg hmem
        have he0 : (stepCore s (.finish ok img)).hasExecuted = false := he2
        rw [hhe] at he0
        have hp0 : (stepCore s (.finish ok img)).person = some p := hp
        rw [hper] at hp0
        have hg0 : (stepCore s (.finish ok img)).garment = some g := hg
        rw [hgar] at hg0
        exact h.fresh he0 p g hp0 hg0 hmem
  | fire =>
      cases harm : s.armed with
      | none =>
          have hf : firedAt s .fire = [] := by simp [firedAt, harm]
          have hc : stepCore s .fire = s := by simp [stepCore, harm]
          rw [hf, List.append_nil]
          show Inv (effect (stepCore s .fire)) fs
          rw [hc]
          exact ⟨h.nodup, h.bound, h.pbound, h.gbound,
                 fun pr hpr => effect_armed_ok s pr hpr, h.fresh⟩
      | some pr0 =>
          obtain ⟨hper, hgar, hhe, hlo⟩ := h.armedOk pr0 harm
          have hf : firedAt s .fire = [pr0] := by
            simp [firedAt, harm, hper, hgar]
          have hc : stepCore s .fire =
              { s with loading := true, progress := 0, result := none,
                       hasExecuted := true, armed := none } := by
            simp [stepCore, harm, hper, hgar]
          have hnotin : pr0 ∉ fs := by
            have h2 := h.fresh hhe pr0.1 pr0.2 hper hgar
            simpa using h2
          rw [hf]
          show Inv (effect (stepCore s .fire)) (fs ++ [pr0])
          rw [hc]
          refine ⟨?_, ?_, ?_, ?_, ?_, ?_⟩
          · exact List.Nodup.append h.nodup (List.nodup_singleton pr0)
              (by simpa [List.disjoint_singleton] using hnotin)
          · intro pr hpr
            rcases List.mem_append.mp hpr with hmem | hmem
            · exact h.bound pr hmem
            · have hpr0 : pr = pr0 := by simpa using hmem
              subst hpr0
              exact ⟨h.pbound pr.1 hper, h.gbound pr.2 hgar⟩
          · intro p hp
            exact h.pbound p (show s.person = some p from hp)
          · intro g hg
            exact h.gbound g (show s.garment = some g from hg)
          · exact fun pr hpr => effect_armed_ok _ pr hpr
          · intro he2 p g hp hg hmem
            exact Bool.noConfusion (show true = false from he2)

theorem inv_init : Inv init [] := by
  refine ⟨List.nodup_nil, ?_, ?_, ?_, ?_, ?_⟩
  · intro pr hpr
    simp at hpr
  · intro p hp
    exact absurd (show (none : Option Nat) = some p from hp) (by simp)
  · intro g hg
    exact absurd (show (none : Option Nat) = some g from hg) (by simp)
  · intro pr hpr
    exact absurd (show (none : Option (Nat × Nat)) = some pr from hpr) (by simp)
  · intro he p g hp hg
    exact absurd (show (none : Option Nat) = some p from hp) (by simp)

theorem inv_run (s : MState) (fs : List (Nat × Nat)) (es : List Event)
    (h : Inv s fs) : Inv (run s es) (fs ++ fired s es) := by
  induction es generalizing s fs with
  | nil => simpa [run, fired] using h
  | cons e es ih =>
      have h1 := inv_step s fs e h
      have h2 := ih (step s e) (fs ++ firedAt s e) h1
      simpa [run, fired, List.append_assoc] using h2

end TimerApp

theorem appOld_submit_post (s : AppOld.State) (o : AppOld.FetchOutcome)
    (hp : s.personImage.isNone = false) (hg : s.garmentImage.isNone = false) :
    (AppOld.handleTryon s o).1.loading = false ∧
      (((AppOld.handleTryon s o).1.resultImage ≠ none ∧ (AppOld.handleTryon s o).1.error = "") ∨
        ((AppOld.handleTryon s o).1.resultImage = none ∧ (AppOld.handleTryon s o).1.error ≠ "")) := by
  cases o with
  | ok data =>
      by_cases hs : (data.success && Js.strTruthy data.result_image) = true
      · have himg : data.result_image ≠ none :=
          strTruthy_ne_none _ ((Bool.and_eq_true _ _).mp hs).2
        constructor
        · simp [AppOld.handleTryon, hp, hg, hs]
        · left
          constructor
          · simpa [AppOld.handleTryon, hp, hg, hs] using himg
          · simp [AppOld.handleTryon, hp, hg, hs]
      · constructor
        · simp [AppOld.handleTryon, hp, hg, hs]
        · right
          constructor
          · simp [AppOld.handleTryon, hp, hg, hs]
          · simpa [AppOld.handleTryon, hp, hg, hs] using
              jsOr_ne_empty data.error _ (jsOr_ne_empty data.message _ (by decide))
  | httpError st stx =>
      refine ⟨by simp [AppOld.handleTryon, hp, hg],
        Or.inr ⟨by simp [AppOld.handleTryon, hp, hg], ?_⟩⟩
      simpa [AppOld.handleTryon, hp, hg] using
        append_ne_empty ("네트워크 오류: ") ("HTTP " ++ toString st ++ ": " ++ stx) (by decide)
  | thrown m =>
      refine ⟨by simp [AppOld.handleTryon, hp, hg],
        Or.inr ⟨by simp [AppOld.handleTryon, hp, hg], ?_⟩⟩
      simpa [AppOld.handleTryon, hp, hg] using
        append_ne_empty ("네트워크 오류: ") m (by decide)

theorem authApp_submit_post (s : AuthApp.State) (o : AuthApp.TryonOutcome)
    (hp : s.personImage.isNone = false) (hg : s.garmentImage.isNone = false) :
    (AuthApp.handleVirtualTryon s o).state.loading = false ∧
      (((AuthApp.handleVirtualTryon s o).alert = none ∧
          (AuthApp.handleVirtualTryon s o).state.result ≠ none) ∨
        ((AuthApp.handleVirtualTryon s o).alert ≠ none ∧
          (AuthApp.handleVirtualTryon s o).state.result = s.result)) := by
  cases o with
  | ok data =>
      by_cases hs : data.success = true
      · exact ⟨by simp [AuthApp.handleVirtualTryon, hp, hg, hs],
          Or.inl ⟨by simp [AuthApp.handleVirtualTryon, hp, hg, hs],
                  by simp [AuthApp.handleVirtualTryon, hp, hg, hs]⟩⟩
      · exact ⟨by simp [AuthApp.handleVirtualTryon, hp, hg, hs],
          Or.inr ⟨by simp [AuthApp.handleVirtualTryon, hp, hg, hs],
                  by simp [AuthApp.handleVirtualTryon, hp, hg, hs]⟩⟩
  | axiosError detail =>
      exact ⟨by simp [AuthApp.handleVirtualTryon, hp, hg],
        Or.inr ⟨by simp [AuthApp.handleVirtualTryon, hp, hg],
                by simp [AuthApp.handleVirtualTryon, hp, hg]⟩⟩

/-- Claim C1 (amended): if either asset is absent, each submit handler
returns without issuing the network call and leaves the result and the
in-flight flag unchanged; the single-flight guard, however, is enforced
only at the trigger — the disabled conditions of the submit buttons and the
auto-trigger effect condition include `loading` — not inside the submit
function itself. -/
theorem submit_guard_amended :
    (∀ (s : AuthApp.State) (o : AuthApp.TryonOutcome),
        s.personImage.isNone = true ∨ s.garmentImage.isNone = true →
        (AuthApp.handleVirtualTryon s o).issued = false ∧
        (AuthApp.handleVirtualTryon s o).state = s) ∧
    (∀ (s : TimerApp.TState) (o : TimerApp.TryonOutcome),
        s.personFile.isNone = true ∨ s.garmentFile.isNone = true →
        (TimerApp.handleVirtualTryon s o).issued = false ∧
        (TimerApp.handleVirtualTryon s o).state = s) ∧
    (∀ (s : AppOld.State) (o : AppOld.FetchOutcome),
        s.personImage.isNone = true ∨ s.garmentImage.isNone = true →
        (AppOld.handleTryon s o).2 = false ∧
        (AppOld.handleTryon s o).1.resultImage = s.resultImage ∧
        (AppOld.handleTryon s o).1.loading = s.loading) ∧
    (∀ s : AppOld.State, s.loading = true → AppOld.tryonDisabled s = true) ∧
    (∀ (s : AuthApp.State) (plans : List (String × AuthApp.PricingPlan)),
        s.loading = true → AuthApp.tryonDisabled s plans = true) ∧
    (∀ s : TimerApp.MState, s.loading = true → TimerApp.autoCond s = false) := by
  refine ⟨?_, ?_, ?_, ?_, ?_, ?_⟩
  · intro s o hmiss
    have hcond : (s.personImage.isNone || s.garmentImage.isNone) = true := by
      rcases hmiss with h | h <;> simp [h]
    constructor <;> simp [AuthApp.handleVirtualTryon, hcond]
  · intro s o hmiss
    have hcond : (s.personFile.isNone || s.garmentFile.isNone) = true := by
      rcases hmiss with h | h <;> simp [h]
    constructor <;> simp [TimerApp.handleVirtualTryon, hcond]
  · intro s o hmiss
    have hcond : (s.personImage.isNone || s.garmentImage.isNone) = true := by
      rcases hmiss with h | h <;> simp [h]
    refine ⟨?_, ?_, ?_⟩ <;> simp [AppOld.handleTryon, hcond]
  · intro s hl
    simp [AppOld.tryonDisabled, hl]
  · intro s plans hl
    simp [AuthApp.tryonDisabled, hl]
  · intro s hl
    simp [TimerApp.autoCond, hl]

theorem submit_guard_amended_witness :
    (AuthApp.handleVirtualTryon emptyAuthState (.ok okResp)).issued = false :=
  (submit_guard_amended.1 emptyAuthState (.ok okResp) (Or.inl rfl)).1

/-- Claim C1 counterexample: with both assets present but a submission
already in flight (`loading = true`), `handleVirtualTryon` still issues
the network call — the function body has no in-flight guard (single
flight is only enforced by the disabled trigger). -/
theorem submit_inflight_counterexample :
    inflightAuthState.loading = true ∧
    (AuthApp.handleVirtualTryon inflightAuthState (.ok okResp)).issued = true := by
  exact ⟨rfl, rfl⟩

/-- Claim C2: for every completed submit call with both assets present —
success body, failure body, or caught transport error/exception — the
in-flight flag is false afterwards and exactly one try-on outcome is
current: in App_old either a result image with an empty error or no
result image with a non-empty error; in the session-aware variant either
a stored result with no alert or a failure alert with the result state
untouched. -/
theorem submit_clears_loading_single_result
    (s : AppOld.State) (o : AppOld.FetchOutcome)
    (hp : s.personImage.isNone = false) (hg : s.garmentImage.isNone = false)
    (s1 : AuthApp.State) (o1 : AuthApp.TryonOutcome)
    (hp1 : s1.personImage.isNone = false) (hg1 : s1.garmentImage.isNone = false) :
    ((AppOld.handleTryon s o).1.loading = false ∧
      (((AppOld.handleTryon s o).1.resultImage ≠ none ∧ (AppOld.handleTryon s o).1.error = "") ∨
        ((AppOld.handleTryon s o).1.resultImage = none ∧ (AppOld.handleTryon s o).1.error ≠ ""))) ∧
    ((AuthApp.handleVirtualTryon s1 o1).state.loading = false ∧
      (((AuthApp.handleVirtualTryon s1 o1).alert = none ∧
          (AuthApp.handleVirtualTryon s1 o1).state.result ≠ none) ∨
        ((AuthApp.handleVirtualTryon s1 o1).alert ≠ none ∧
          (AuthApp.handleVirtualTryon s1 o1).state.result = s1.result))) :=
  ⟨appOld_submit_post s o hp hg, authApp_submit_post s1 o1 hp1 hg1⟩

theorem submit_clears_loading_single_result_witness :
    (AppOld.handleTryon readyOldState (.thrown ("timeout of 120000ms exceeded"))).1.loading =
      false ∧
    (AuthApp.handleVirtualTryon readyAuthState (.axiosError none)).state.loading = false :=
  ⟨(submit_clears_loading_single_result readyOldState (.thrown ("timeout of 120000ms exceeded"))
      rfl rfl readyAuthState (.axiosError none) rfl rfl).1.1,
   (submit_clears_loading_single_result readyOldState (.thrown ("timeout of 120000ms exceeded"))
      rfl rfl readyAuthState (.axiosError none) rfl rfl).2.1⟩

/-- Claim C3 (amended): for a plan found in the catalog,
`remainingUsage` is -1 when the daily limit of the plan is -1 and otherwise
the unclamped difference `daily_limit - daily_usage` (no `max` with 0);
the usage gate blocks submission exactly when `remainingUsage` equals 0. -/
theorem remainingUsage_amended :
    (∀ (u : AuthApp.User) (plans : List (String × AuthApp.PricingPlan))
        (p : AuthApp.PricingPlan),
        AuthApp.planLookup plans u.plan = some p →
        AuthApp.remainingUsage (some u) plans =
          (if p.daily_limit = -1 then -1 else p.daily_limit - u.daily_usage)) ∧
    (∀ (user : Option AuthApp.User) (plans : List (String × AuthApp.PricingPlan)),
        AuthApp.usageBlocked user plans = true ↔ AuthApp.remainingUsage user plans = 0) := by
  constructor
  · intro u plans p hlk
    simp [AuthApp.remainingUsage, hlk]
  · intro user plans
    simp [AuthApp.usageBlocked]

theorem remainingUsage_amended_witness :
    AuthApp.remainingUsage (some overLimitUser) basicPlans =
      (if (2 : Int) = -1 then -1 else 2 - 3) :=
  remainingUsage_amended.1 overLimitUser basicPlans
    { name := "Basic", price := 9, daily_limit := 2, features := [] } (by decide)

/-- Claim C3 counterexample: for the basic plan (daily limit 2) and a
reported daily usage of 3, the code computes `remainingUsage = -1`
(colliding with the unlimited marker), not `max 0 (2 - 3) = 0` as the
claim states, and the usage gate does not block submission there. -/
theorem remainingUsage_counterexample :
    AuthApp.remainingUsage (some overLimitUser) basicPlans = -1 ∧
    AuthApp.remainingUsageSpec (some overLimitUser) basicPlans = 0 ∧
    AuthApp.remainingUsage (some overLimitUser) basicPlans ≠
      AuthApp.remainingUsageSpec (some overLimitUser) basicPlans ∧
    AuthApp.usageBlocked (some overLimitUser) basicPlans = false := by
  refine ⟨?_, ?_, ?_, ?_⟩ <;> decide

/-- Claim C4 (amended): in App_old both conditions hold — `success:false`
and malformed success (`result_image` missing/empty) each produce a
failure with the error field (falling back to `message`, then a generic
text); in the session-aware variant `success:false` raises a failure
alert carrying the error field, but a success body with `result_image`
missing is handled by the success branch: no failure alert and the result
set to the empty string. -/
theorem response_interpretation_amended :
    (∀ (s : AppOld.State) (data : AppOld.TryonResponse),
        s.personImage.isNone = false → s.garmentImage.isNone = false →
        data.success = false →
        (AppOld.handleTryon s (.ok data)).1.resultImage = none ∧
        (AppOld.handleTryon s (.ok data)).1.error =
          Js.jsOr data.error (Js.jsOr data.message ("가상 피팅에 실패했습니다."))) ∧
    (∀ (s : AppOld.State) (data : AppOld.TryonResponse),
        s.personImage.isNone = false → s.garmentImage.isNone = false →
        data.success = true → Js.strTruthy data.result_image = false →
        (AppOld.handleTryon s (.ok data)).1.resultImage = none ∧
        (AppOld.handleTryon s (.ok data)).1.error =
          Js.jsOr data.error (Js.jsOr data.message ("가상 피팅에 실패했습니다."))) ∧
    (∀ (s : AuthApp.State) (data : AuthApp.TryonResponse),
        s.personImage.isNone = false → s.garmentImage.isNone = false →
        data.success = false →
        (AuthApp.handleVirtualTryon s (.ok data)).alert =
          some (Js.jsOr data.error ("가상 피팅 실패")) ∧
        (AuthApp.handleVirtualTryon s (.ok data)).state.result = s.result) ∧
    (∀ (s : AuthApp.State) (data : AuthApp.TryonResponse),
        s.personImage.isNone = false → s.garmentImage.isNone = false →
        data.success = true → data.result_image = none →
        (AuthApp.handleVirtualTryon s (.ok data)).alert = none ∧
        (AuthApp.handleVirtualTryon s (.ok data)).state.result = some ("")) := by
  refine ⟨?_, ?_, ?_, ?_⟩
  · intro s data hp hg hs
    constructor <;> simp [AppOld.handleTryon, hp, hg, hs]
  · intro s data hp hg hs himg
    constructor <;> simp [AppOld.handleTryon, hp, hg, hs, himg]
  · intro s data hp hg hs
    constructor <;> simp [AuthApp.handleVirtualTryon, hp, hg, hs]
  · intro s data hp hg hs himg
    constructor <;> simp [AuthApp.handleVirtualTryon, hp, hg, hs, himg, Js.jsOr]

theorem response_interpretation_witness :
    (AuthApp.handleVirtualTryon readyAuthState
        (.ok { success := false, result_image := none, processing_time := none,
               cost := none, remaining_usage := none,
               error := some ("no face detected") })).alert =
      some (Js.jsOr (some ("no face detected")) ("가상 피팅 실패")) :=
  (response_interpretation_amended.2.2.1 readyAuthState
      { success := false, result_image := none, processing_time := none,
        cost := none, remaining_usage := none, error := some ("no face detected") }
      rfl rfl rfl).1

/-- Claim C4 counterexample: in the session-aware variant a success body
with `result_image` missing is handled by the success branch — no failure
alert, the result set to the empty string and the usage counter
incremented — so a malformed success is not treated as a failure. -/
theorem malformed_success_counterexample :
    (AuthApp.handleVirtualTryon readyAuthState (.ok malformedSuccessResp)).alert = none ∧
    (AuthApp.handleVirtualTryon readyAuthState (.ok malformedSuccessResp)).state.result =
      some ("") ∧
    (AuthApp.handleVirtualTryon readyAuthState (.ok malformedSuccessResp)).state.user =
      some { id := 0, email := "a@b.c", plan := "free", daily_usage := 2 } := by
  refine ⟨rfl, by decide, by decide⟩

/-- Claim C5 (amended): the auto-trigger executes at most once per
distinct (person, garment) asset pair, and its pending timeout is
cancelled when either asset changes before the delay elapses; the
has-executed latch is reset by the screen reset, but replacing an asset
does not reset it (only `handleReset` calls `setHasExecuted(false)`). -/
theorem autoTrigger_amended :
    (∀ es : List TimerApp.Event, (TimerApp.fired TimerApp.init es).Nodup) ∧
    (∀ (es : List TimerApp.Event) (pr : Nat × Nat),
        (TimerApp.run TimerApp.init es).armed = some pr →
        (TimerApp.step (TimerApp.run TimerApp.init es) .selectPerson).armed ≠ some pr ∧
        (TimerApp.step (TimerApp.run TimerApp.init es) .selectGarment).armed ≠ some pr) ∧
    (∀ s : TimerApp.MState, (TimerApp.step s .reset).hasExecuted = false) := by
  refine ⟨?_, ?_, ?_⟩
  · intro es
    have h2 := TimerApp.inv_run TimerApp.init [] es TimerApp.inv_init
    simpa using h2.nodup
  · intro es pr harm
    have hinv := TimerApp.inv_run TimerApp.init [] es TimerApp.inv_init
    obtain ⟨hper, hgar, hhe, hlo⟩ := hinv.armedOk pr harm
    have hp1 : pr.1 < (TimerApp.run TimerApp.init es).nextId := hinv.pbound pr.1 hper
    have hg1 : pr.2 < (TimerApp.run TimerApp.init es).nextId := hinv.gbound pr.2 hgar
    constructor
    · intro hcontra
      have h3 := TimerApp.step_armed_ok (TimerApp.run TimerApp.init es) .selectPerson pr hcontra
      have h4 : some (TimerApp.run TimerApp.init es).nextId = some pr.1 := h3.1
      have h5 : pr.1 = (TimerApp.run TimerApp.init es).nextId := (Option.some.inj h4).symm
      omega
    · intro hcontra
      have h3 := TimerApp.step_armed_ok (TimerApp.run TimerApp.init es) .selectGarment pr hcontra
      have h4 : some (TimerApp.run TimerApp.init es).nextId = some pr.2 := h3.2.1
      have h5 : pr.2 = (TimerApp.run TimerApp.init es).nextId := (Option.some.inj h4).symm
      omega
  · intro s
    rfl

theorem autoTrigger_amended_witness :
    (TimerApp.run TimerApp.init
        [TimerApp.Event.selectPerson, TimerApp.Event.selectGarment]).armed = some (0, 1) ∧
    (TimerApp.step (TimerApp.run TimerApp.init
        [TimerApp.Event.selectPerson, TimerApp.Event.selectGarment]) .selectPerson).armed ≠
      some (0, 1) :=
  ⟨rfl, (autoTrigger_amended.2.1 [TimerApp.Event.selectPerson, TimerApp.Event.selectGarment]
      (0, 1) rfl).1⟩

/-- Claim C5 counterexample: after a successful auto-triggered run,
replacing the person asset with a fresh file leaves the has-executed
latch set (and arms no new timer), so the latch does not reset when an
asset is replaced — contrary to the claim, it resets only on the screen
reset. -/
theorem latch_replace_counterexample :
    (TimerApp.run TimerApp.init replaceTrace).hasExecuted = true ∧
    (TimerApp.run TimerApp.init replaceTrace).person = some 2 ∧
    (TimerApp.run TimerApp.init replaceTrace).armed = none := by
  refine ⟨rfl, rfl, rfl⟩

/-- Claim C6 (amended): logout clears the stored token, the session user,
the selected person and garment images and the result, and switches the
view to the unauthenticated login screen; the processing-time metadata
(and the loading flag) are not touched and survive logout. -/
theorem logout_amended (s : AuthApp.State) :
    (AuthApp.handleLogout s).storedToken = none ∧
    (AuthApp.handleLogout s).user = none ∧
    (AuthApp.handleLogout s).currentView = .login ∧
    (AuthApp.handleLogout s).result = none ∧
    (AuthApp.handleLogout s).personImage = none ∧
    (AuthApp.handleLogout s).garmentImage = none ∧
    (AuthApp.handleLogout s).processingTime = s.processingTime ∧
    (AuthApp.handleLogout s).loading = s.loading :=
  ⟨rfl, rfl, rfl, rfl, rfl, rfl, rfl, rfl⟩

/-- Claim C6 counterexample: logging out of a state whose last try-on set
`processingTime = 4.2` leaves that processing metadata in place instead
of returning it to its initial value `none`. -/
theorem logout_counterexample :
    (AuthApp.handleLogout afterSuccessAuthState).processingTime = some (4.2 : ℚ) ∧
    some (4.2 : ℚ) ≠ (none : Option ℚ) := by
  constructor
  · rfl
  · simp

/-- Claim C7 (amended): the timer-driven and session-aware variants
transmit the bare stripped base64 as image fields; App_old re-adds a
`data:image/jpeg;base64,` header in front of the stripped base64 before
transmission, so its image fields are data-URI strings rather than bare
base64. -/
theorem payload_encoding_amended (u : String) :
    TimerApp.requestImageField u = Js.fileToBase64 u ∧
    AuthApp.requestImageField u = Js.fileToBase64 u ∧
    AppOld.requestImageField u = "data:image/jpeg;base64," ++ Js.fileToBase64 u :=
  ⟨rfl, rfl, rfl⟩

/-- Claim C7 counterexample: for a file read as
`data:image/png;base64,QUJD`, App_old transmits
`data:image/jpeg;base64,QUJD` — a data-URI string — instead of the bare
base64 `QUJD`. -/
theorem payload_encoding_counterexample :
    AppOld.requestImageField ("data:image/png;base64,QUJD") = "data:image/jpeg;base64,QUJD" ∧
    Js.fileToBase64 ("data:image/png;base64,QUJD") = "QUJD" ∧
    AppOld.requestImageField ("data:image/png;base64,QUJD") ≠
      Js.fileToBase64 ("data:image/png;base64,QUJD") := by
  refine ⟨?_, ?_, ?_⟩ <;> decide

/-- Claim C8 (amended): given `{success: true, result_image: "X",
processing_time: 4.2, cost: 0.1}` with both assets present, the
session-aware variant stores result "X" and processing time 4.2 and
increments the local daily usage by exactly 1, and App_old stores result
image "X"; the `cost` field of the response is retained nowhere — the
entire handler output is invariant under it. -/
theorem success_result_amended (s : AuthApp.State) (u : AuthApp.User)
    (hp : s.personImage.isNone = false) (hg : s.garmentImage.isNone = false)
    (hu : s.user = some u)
    (s2 : AppOld.State)
    (hp2 : s2.personImage.isNone = false) (hg2 : s2.garmentImage.isNone = false) :
    (AuthApp.handleVirtualTryon s (.ok (c8Resp (some (1/10))))).state.result = some ("X") ∧
    (AuthApp.handleVirtualTryon s (.ok (c8Resp (some (1/10))))).state.processingTime =
      some (4.2 : ℚ) ∧
    (AuthApp.handleVirtualTryon s (.ok (c8Resp (some (1/10))))).state.user =
      some { u with daily_usage := u.daily_usage + 1 } ∧
    (∀ c c2 : Option ℚ,
        AuthApp.handleVirtualTryon s (.ok (c8Resp c)) =
          AuthApp.handleVirtualTryon s (.ok (c8Resp c2))) ∧
    (AppOld.handleTryon s2 (.ok
        { success := true, result_image := some ("X"), message := none, error := none,
          processing_time := some (4.2 : ℚ), is_test_mode := none })).1.resultImage =
      some ("X") := by
  refine ⟨?_, ?_, ?_, ?_, ?_⟩
  · simp [AuthApp.handleVirtualTryon, hp, hg, c8Resp, Js.jsOr]
  · simp [AuthApp.handleVirtualTryon, hp, hg, c8Resp]
  · simp [AuthApp.handleVirtualTryon, hp, hg, hu, c8Resp]
  · intro c c2
    simp [AuthApp.handleVirtualTryon, hp, hg, c8Resp]
  · simp [AppOld.handleTryon, hp2, hg2, Js.strTruthy]

theorem success_result_amended_witness :
    (AuthApp.handleVirtualTryon readyAuthState (.ok (c8Resp (some (1/10))))).state.result =
      some ("X") :=
  (success_result_amended readyAuthState
      { id := 0, email := "a@b.c", plan := "free", daily_usage := 1 } rfl rfl rfl
      readyOldState rfl rfl).1

/-- Claim C8 counterexample: the entire handler output on the C8 body
with cost 0.1 equals its output on the same body with cost 999 — the
cost field is dropped, so the current TryonResult cannot carry cost 0.1. -/
theorem cost_not_retained_counterexample :
    AuthApp.handleVirtualTryon readyAuthState (.ok (c8Resp (some (1/10)))) =
      AuthApp.handleVirtualTryon readyAuthState (.ok (c8Resp (some 999))) ∧
    (some ((1 : ℚ)/10) : Option ℚ) ≠ some 999 := by
  constructor
  · rfl
  · simp
    norm_num

/-- Claim C9 (amended): on login success the token is persisted and the
session takes the server-declared plan and daily usage; on register
success the token is persisted but the session is populated with the
client-requested plan and a hard-coded daily usage of 0, ignoring the
plan and usage fields of the response; on failure the `detail`
message is alerted verbatim, with a generic fallback when it is absent. -/
theorem auth_session_amended :
    (∀ (s : AuthApp.State) (e pw tok plan : String) (du : Int),
        (AuthApp.handleLogin s e pw (.ok tok plan du)).state.storedToken = some tok ∧
        (AuthApp.handleLogin s e pw (.ok tok plan du)).state.user =
          some { id := 0, email := e, plan := plan, daily_usage := du } ∧
        (AuthApp.handleLogin s e pw (.ok tok plan du)).state.currentView = .main) ∧
    (∀ (s : AuthApp.State) (e pw : String) (d : Option String),
        (AuthApp.handleLogin s e pw (.err d)).alert = some (Js.jsOr d ("로그인 실패"))) ∧
    (∀ (s : AuthApp.State) (e pw planReq tok planResp : String) (du : Int),
        (AuthApp.handleRegister s e pw planReq (.ok tok planResp du)).state.storedToken =
          some tok ∧
        (AuthApp.handleRegister s e pw planReq (.ok tok planResp du)).state.user =
          some { id := 0, email := e, plan := planReq, daily_usage := 0 } ∧
        (AuthApp.handleRegister s e pw planReq (.ok tok planResp du)).state.currentView =
          .main) ∧
    (∀ (s : AuthApp.State) (e pw planReq : String) (d : Option String),
        (AuthApp.handleRegister s e pw planReq (.err d)).alert =
          some (Js.jsOr d ("회원가입 실패"))) := by
  refine ⟨?_, ?_, ?_, ?_⟩
  · intro s e pw tok plan du
    exact ⟨rfl, rfl, rfl⟩
  · intro s e pw d
    rfl
  · intro s e pw planReq tok planResp du
    exact ⟨rfl, rfl, rfl⟩
  · intro s e pw planReq d
    rfl

/-- Claim C9 counterexample: registering with requested plan "free"
against a response declaring plan "premium" and daily usage 5 persists
the token but populates the session with plan "free" and usage 0 — the
server-declared plan and usage of the response are ignored. -/
theorem register_counterexample :
    (AuthApp.handleRegister emptyAuthState ("a@b.c") ("pw") ("free")
        (.ok ("TOK") ("premium") 5)).state.user =
      some { id := 0, email := "a@b.c", plan := "free", daily_usage := 0 } ∧
    (some { id := 0, email := "a@b.c", plan := "free", daily_usage := 0 }
        : Option AuthApp.User) ≠
      some { id := 0, email := "a@b.c", plan := "premium", daily_usage := 5 } ∧
    (AuthApp.handleRegister emptyAuthState ("a@b.c") ("pw") ("free")
        (.ok ("TOK") ("premium") 5)).state.storedToken = some ("TOK") := by
  refine ⟨rfl, by decide, rfl⟩

/-- Claim C10: when the plan id of the logged-in user is absent from the
fetched pricing catalog, `remainingUsage` evaluates to -1 and the usage
gate never blocks submission — an unknown plan is silently treated as
unlimited. -/
theorem unknown_plan_unlimited (u : AuthApp.User)
    (plans : List (String × AuthApp.PricingPlan))
    (h : AuthApp.planLookup plans u.plan = none) :
    AuthApp.remainingUsage (some u) plans = -1 ∧
    AuthApp.usageBlocked (some u) plans = false := by
  constructor
  · simp [AuthApp.remainingUsage, h]
  · simp [AuthApp.usageBlocked, AuthApp.remainingUsage, h]

theorem unknown_plan_unlimited_witness :
    AuthApp.remainingUsage
      (some { id := 2, email := "g@h.com", plan := "ghost", daily_usage := 0 })
      basicPlans = -1 :=
  (unknown_plan_unlimited { id := 2, email := "g@h.com", plan := "ghost", daily_usage := 0 }
      basicPlans (by decide)).1
